import Mathlib

/-!
Shallow embedding of `gen_data.py`, a synthetic-data generator producing four
small tables (wells completion counts, production volumes, production-share
percentages, geographic well sites), each serialized to a CSV file with a
header row.

Modelling decisions:
* A table is embedded as a pair `(header, rows)`: the header is the list of
  column names in the insertion order of the Python dict handed to
  `pd.DataFrame`, and the rows are the positional zip of the column value
  lists (`to_csv(..., index=False)` writes exactly these, so no index column
  appears in the model).
* Python floats in the source are literal decimal constants; they are embedded
  as exact rationals (`ℚ`).
* `np.random` is an external library.  It is embedded as an abstract PRNG
  interface `PRNG σ`: an explicit state type `σ`, a `seed` operation and a
  `randint lo hi` operation contractually returning a value in `[lo, hi)`
  (the documented behaviour of `numpy.random.randint`), threaded through the
  generator by explicit state passing.
* `pathlib.Path.mkdir` is likewise external; it is embedded over a filesystem
  modelled as the list of existing directory paths.
-/

/-- Python `range(a, b)`: the integers `a, a+1, ..., b-1`. -/
def pyRange (a b : Nat) : List Nat :=
  List.range' a (b - a)

/-- Abstract interface for the pseudo-random generator `np.random`:
a state type `σ`, `seed` building a state from an integer seed, and
`randint lo hi` drawing an integer in `[lo, hi)` (the documented contract of
`numpy.random.randint` with `low = lo`, `high = hi`) while advancing the
state. -/
structure PRNG (σ : Type) where
  seed : Nat → σ
  randint : ℤ → ℤ → σ → ℤ × σ
  randint_le : ∀ lo hi s, lo < hi → lo ≤ (randint lo hi s).1
  randint_lt : ∀ lo hi s, lo < hi → (randint lo hi s).1 < hi

/-- The `for year in years` loop body of `generate_wells_completion_data`:
for each year draw a count from the band chosen by the `if/elif/else` on the
year, threading the PRNG state in year order.  Returns the `wells_count`
list together with the final PRNG state. -/
def drawWells {σ : Type} (g : PRNG σ) : List ℤ → σ → List ℤ × σ
  | [], s => ([], s)
  | year :: ys, s =>
    let p :=
      if year < 1970 then g.randint 0 50 s
      else if 1970 ≤ year ∧ year < 1990 then g.randint 50 600 s
      else g.randint 20 200 s
    let rest := drawWells g ys p.2
    (p.1 :: rest.1, rest.2)

/-- `years = list(range(1960, 2021))` in `generate_wells_completion_data`. -/
def wellsYears : List ℤ :=
  (pyRange 1960 2021).map Int.ofNat

/-- `generate_wells_completion_data()`: seeds the PRNG with 42 (discarding the
incoming state `s0`, exactly as `np.random.seed(42)` resets the global state),
draws one count per year of 1960..2020, and builds the `df_wells` table with
columns `Year`, `Completed_Wells`.  Returns the table and the final PRNG
state. -/
def generate_wells_completion_data {σ : Type} (g : PRNG σ) (s0 : σ) :
    (List String × List (ℤ × ℤ)) × σ :=
  let s := g.seed 42
  let wc := drawWells g wellsYears s
  ((["Year", "Completed_Wells"], wellsYears.zip wc.1), wc.2)

/-- `generate_production_data()`: the years 2008..2015 zipped positionally
with the three literal 8-value sequences `gas_production`, `oil_production`,
`water_production`, under columns
`Year, Gas_Produced, Oil_Produced, Water_Produced`. -/
def generate_production_data : List String × List (ℤ × ℚ × ℚ × ℚ) :=
  let years : List ℤ := (pyRange 2008 2016).map Int.ofNat
  let gas_production : List ℚ := [0, 0.2, 0.8, 2.0, 1.8, 1.2, 0.5, 0]
  let oil_production : List ℚ := [0, 0.1, 0.1, 0.1, 0.1, 0.1, 0.1, 0]
  let water_production : List ℚ := [0, 0, 0, 0, 0, 0, 0, 0]
  (["Year", "Gas_Produced", "Oil_Produced", "Water_Produced"],
   years.zip (gas_production.zip (oil_production.zip water_production)))

/-- The `categories` literal of `generate_production_summary`. -/
def categories : List String :=
  ["Gas", "Water", "Oil",
   "Gas Development", "Oil Development",
   "Gas Extension", "Gas Wildcat",
   "Oil Injection", "Oil Wildcat"]

/-- The `percentages` literal of `generate_production_summary` (the source
comment calls them "Realistic percentages that sum to 100%"). -/
def percentages : List ℚ :=
  [96.7, 0.807, 2.3,
   54.1, 39.1,
   3.08, 2.96,
   0.41, 0.685]

/-- `generate_production_summary()`: the nine `(Category, Percentage)` pairs
in literal order, under columns `Category, Percentage`. -/
def generate_production_summary : List String × List (String × ℚ) :=
  (["Category", "Percentage"], categories.zip percentages)

/-- `generate_geographic_data()`: the `well_sites` dict zipped positionally
into rows `(Site_Name, Latitude, Longitude, Status, Type)`. -/
def generate_geographic_data :
    List String × List (String × ℚ × ℚ × String × String) :=
  let siteNames : List String :=
    ["Well Site A", "Well Site B", "Well Site C", "Well Site D"]
  let latitudes : List ℚ := [42.5, 42.8, 42.3, 42.6]
  let longitudes : List ℚ := [-76.5, -76.2, -76.8, -76.4]
  let statuses : List String := ["Active", "Active", "Active", "Active"]
  let types : List String :=
    ["Gas Production", "Oil Production", "Gas Wildcat", "Water Injection"]
  (["Site_Name", "Latitude", "Longitude", "Status", "Type"],
   siteNames.zip (latitudes.zip (longitudes.zip (statuses.zip types))))

/-- A concrete PRNG instance used to witness the abstract theorems: a simple
counter-based generator whose `randint lo hi` returns `lo + state % (hi-lo)`. -/
def lcgRandint (lo hi : ℤ) (s : Nat) : ℤ × Nat :=
  (lo + (s : ℤ) % (hi - lo), (s + 1) % 1000)

/-- A directory path in the filesystem model: its list of components. -/
abbrev FsPath := List String

/-- Error outcomes of `pathlib.Path.mkdir`. -/
inductive MkdirError where
  | fileExists
  | fileNotFound
deriving DecidableEq, Repr

/-- The proper non-empty ancestors of a path, shortest first. -/
def fsAncestors (p : FsPath) : List FsPath :=
  ((List.range p.length).map (fun i => p.take i)).filter (fun q => q ≠ [])

/-- Modelled from the documented semantics of `pathlib.Path.mkdir(parents,
exist_ok)` over a filesystem given as the list of existing directories (the
filesystem root `[]` always exists): if the path exists, succeed silently when
`exist_ok` and fail with `FileExistsError` otherwise; if its parent exists,
create it; otherwise create the missing ancestors when `parents` and fail with
`FileNotFoundError` when not. -/
def mkdir (fs : List FsPath) (p : FsPath) (parents exist_ok : Bool) :
    Except MkdirError (List FsPath) :=
  if p ∈ fs then
    if exist_ok then .ok fs else .error .fileExists
  else if p.dropLast = [] ∨ p.dropLast ∈ fs then
    .ok (p :: fs)
  else if parents then
    .ok (p :: (fsAncestors p).foldl (fun a q => if q ∈ a then a else a ++ [q]) fs)
  else
    .error .fileNotFound

/-- `Path(__file__).parent.parent` of `gen_data.py`: the project root
directory. -/
def project_root : FsPath := ["Testing01"]

/-- `data_dir = Path(__file__).parent.parent / "data"`. -/
def data_dir : FsPath := project_root ++ ["data"]

/-- The module-level output-directory setup of `gen_data.py`:
`data_dir.mkdir(exist_ok=True)` — `parents` is left at its default `False`. -/
def data_dir_setup (fs : List FsPath) : Except MkdirError (List FsPath) :=
  mkdir fs data_dir false true

/-- The concrete PRNG instance packaged with proofs of the `randint`
range contract. -/
def lcg : PRNG Nat where
  seed := fun n => n
  randint := lcgRandint
  randint_le := by
    intro lo hi s h
    have h0 : (0 : ℤ) ≤ (s : ℤ) % (hi - lo) := Int.emod_nonneg _ (by omega)
    simp only [lcgRandint]
    omega
  randint_lt := by
    intro lo hi s h
    have h1 : (s : ℤ) % (hi - lo) < hi - lo :=
      Int.emod_lt_of_pos _ (by omega)
    simp only [lcgRandint]
    omega

/-! ## Helper lemmas about the wells generator -/

lemma drawWells_length {σ : Type} (g : PRNG σ) :
    ∀ (ys : List ℤ) (s : σ), (drawWells g ys s).1.length = ys.length := by
  intro ys
  induction ys with
  | nil => intro s; rfl
  | cons a l ih => intro s; simp [drawWells, ih]

lemma drawWells_zip_mem {σ : Type} (g : PRNG σ) :
    ∀ (ys : List ℤ) (s : σ) (y c : ℤ),
      (y, c) ∈ ys.zip (drawWells g ys s).1 →
      (y < 1970 → 0 ≤ c ∧ c < 50) ∧
      (1970 ≤ y → y < 1990 → 50 ≤ c ∧ c < 600) ∧
      (1990 ≤ y → 20 ≤ c ∧ c < 200) := by
  intro ys
  induction ys with
  | nil => intro s y c h; simp [drawWells] at h
  | cons a l ih =>
    intro s y c h
    simp only [drawWells, List.zip_cons_cons, List.mem_cons] at h
    rcases h with h1 | h2
    · rw [Prod.mk.injEq] at h1
      obtain ⟨rfl, rfl⟩ := h1
      by_cases h70 : y < 1970
      · simp only [if_pos h70]
        refine ⟨fun _ => ⟨g.randint_le 0 50 s (by norm_num),
          g.randint_lt 0 50 s (by norm_num)⟩, fun ha hb => ?_, fun ha => ?_⟩
        · omega
        · omega
      · by_cases h90 : 1970 ≤ y ∧ y < 1990
        · simp only [if_neg h70, if_pos h90]
          refine ⟨fun ha => ?_, fun _ _ => ⟨g.randint_le 50 600 s (by norm_num),
            g.randint_lt 50 600 s (by norm_num)⟩, fun ha => ?_⟩
          · omega
          · omega
        · simp only [if_neg h70, if_neg h90]
          refine ⟨fun ha => ?_, fun ha hb => ?_, fun _ =>
            ⟨g.randint_le 20 200 s (by norm_num),
             g.randint_lt 20 200 s (by norm_num)⟩⟩
          · omega
          · omega
    · exact ih _ y c h2

/-! ## Claim theorems -/

/-- C1: the wells-completion generator seeds the PRNG with the fixed constant
42 before any draw, so two calls produce identical `Completed_Wells`
sequences (indeed identical tables) no matter what states `s1`, `s2` the
shared PRNG was left in by any draws happening between the calls: the output
is independent of the incoming PRNG state. -/
theorem wells_determinism {σ : Type} (g : PRNG σ) (s1 s2 : σ) :
    (generate_wells_completion_data g s1).1.2.map Prod.snd =
      (generate_wells_completion_data g s2).1.2.map Prod.snd ∧
    (generate_wells_completion_data g s1).1 =
      (generate_wells_completion_data g s2).1 :=
  ⟨rfl, rfl⟩

/-- Witness for C1 at a concrete PRNG and two distinct interleaving-dependent
states. -/
theorem wells_determinism_witness :
    (generate_wells_completion_data lcg 0).1.2.map Prod.snd =
      (generate_wells_completion_data lcg 999).1.2.map Prod.snd ∧
    (generate_wells_completion_data lcg 0).1 =
      (generate_wells_completion_data lcg 999).1 :=
  wells_determinism lcg 0 999

/-- C2: every row of the wells-completion table has its `Completed_Wells`
count in the band determined by its year: `[0, 50)` for years before 1970,
`[50, 600)` for 1970–1989, and `[20, 200)` for years from 1990 on. -/
theorem wells_range_invariant {σ : Type} (g : PRNG σ) (s0 : σ) (y c : ℤ)
    (h : (y, c) ∈ (generate_wells_completion_data g s0).1.2) :
    (y < 1970 → 0 ≤ c ∧ c < 50) ∧
    (1970 ≤ y → y < 1990 → 50 ≤ c ∧ c < 600) ∧
    (1990 ≤ y → 20 ≤ c ∧ c < 200) :=
  drawWells_zip_mem g wellsYears (g.seed 42) y c h

/-- Witness for C2: with the concrete PRNG, the 1960 row carries count 42,
which the theorem places in `[0, 50)`. -/
theorem wells_range_invariant_witness :
    ((1960 : ℤ), (42 : ℤ)) ∈ (generate_wells_completion_data lcg 0).1.2 ∧
    (0 ≤ (42 : ℤ) ∧ (42 : ℤ) < 50) :=
  ⟨by decide, (wells_range_invariant lcg 0 1960 42 (by decide)).1 (by decide)⟩

/-- C3: the wells-completion table has exactly 61 rows, its `Year` column is
exactly the integers 1960 through 2020 (the mapped `range(1960, 2021)`),
strictly increasing with no gaps or duplicates, and every `Completed_Wells`
value is non-negative. -/
theorem wells_rows_structure {σ : Type} (g : PRNG σ) (s0 : σ) :
    (generate_wells_completion_data g s0).1.2.length = 61 ∧
    (generate_wells_completion_data g s0).1.2.map Prod.fst =
      (List.range' 1960 61).map Int.ofNat ∧
    List.Chain' (· < ·)
      ((generate_wells_completion_data g s0).1.2.map Prod.fst) ∧
    List.Forall (fun p => 0 ≤ p.2)
      (generate_wells_completion_data g s0).1.2 := by
  have hlen : (drawWells g wellsYears (g.seed 42)).1.length =
      wellsYears.length := drawWells_length g wellsYears (g.seed 42)
  have hmap : (generate_wells_completion_data g s0).1.2.map Prod.fst =
      wellsYears := List.map_fst_zip _ _ (le_of_eq hlen.symm)
  refine ⟨?_, ?_, ?_, ?_⟩
  · show (wellsYears.zip (drawWells g wellsYears (g.seed 42)).1).length = 61
    rw [List.length_zip, hlen, min_self]
    decide
  · rw [hmap]; decide
  · rw [hmap]
    show List.Chain' (· < ·) ((List.range' 1960 61).map Int.ofNat)
    apply List.Pairwise.chain'
    rw [List.pairwise_map]
    exact (List.pairwise_lt_range' 1960 61).imp (fun h => Int.ofNat_lt.mpr h)
  · rw [List.forall_iff_forall_mem]
    intro p hp
    obtain ⟨y, c⟩ := p
    have hb := drawWells_zip_mem g wellsYears (g.seed 42) y c hp
    show 0 ≤ c
    rcases hb with ⟨h1, h2, h3⟩
    by_cases hy1 : y < 1970
    · exact (h1 hy1).1
    · by_cases hy2 : y < 1990
      · have := h2 (by omega) hy2; omega
      · have := h3 (by omega); omega

/-- C4: each of the four tables carries exactly the header row of §6, in
order, with no index column: the row type holds only the data columns and
`to_csv` is modelled with `index=False`. -/
theorem csv_headers_match {σ : Type} (g : PRNG σ) (s0 : σ) :
    (generate_wells_completion_data g s0).1.1 = ["Year", "Completed_Wells"] ∧
    generate_production_data.1 =
      ["Year", "Gas_Produced", "Oil_Produced", "Water_Produced"] ∧
    generate_production_summary.1 = ["Category", "Percentage"] ∧
    generate_geographic_data.1 =
      ["Site_Name", "Latitude", "Longitude", "Status", "Type"] :=
  ⟨rfl, rfl, rfl, rfl⟩

/-- Witness for C4 at the concrete PRNG. -/
theorem csv_headers_match_witness :
    (generate_wells_completion_data lcg 0).1.1 = ["Year", "Completed_Wells"] ∧
    generate_production_data.1 =
      ["Year", "Gas_Produced", "Oil_Produced", "Water_Produced"] ∧
    generate_production_summary.1 = ["Category", "Percentage"] ∧
    generate_geographic_data.1 =
      ["Site_Name", "Latitude", "Longitude", "Status", "Type"] :=
  csv_headers_match lcg 0

/-- C5: the production table has exactly the 8 rows for 2008..2015 obtained
by positionally aligning the three literal sequences with the years; in
particular year 2011 carries `Gas_Produced = 2.0`, and years 2008 and 2015
carry all-zero production. -/
theorem production_data_literals :
    generate_production_data.2.length = 8 ∧
    generate_production_data.2 =
      [(2008, 0, 0, 0), (2009, 0.2, 0.1, 0), (2010, 0.8, 0.1, 0),
       (2011, 2.0, 0.1, 0), (2012, 1.8, 0.1, 0), (2013, 1.2, 0.1, 0),
       (2014, 0.5, 0.1, 0), (2015, 0, 0, 0)] ∧
    ((2011 : ℤ), (2.0 : ℚ), (0.1 : ℚ), (0 : ℚ)) ∈ generate_production_data.2 ∧
    ((2008 : ℤ), (0 : ℚ), (0 : ℚ), (0 : ℚ)) ∈ generate_production_data.2 ∧
    ((2015 : ℤ), (0 : ℚ), (0 : ℚ), (0 : ℚ)) ∈ generate_production_data.2 := by
  refine ⟨rfl, rfl, ?_, ?_, ?_⟩ <;> simp [generate_production_data, pyRange, List.range']

/-- C6: the production summary is exactly the nine literal
`(Category, Percentage)` pairs in their written order — no sorting or
aggregation — and it contains the rows `("Gas", 96.7)` and
`("Oil Wildcat", 0.685)`. -/
theorem production_summary_literals :
    generate_production_summary.2.length = 9 ∧
    generate_production_summary.2 =
      [("Gas", 96.7), ("Water", 0.807), ("Oil", 2.3),
       ("Gas Development", 54.1), ("Oil Development", 39.1),
       ("Gas Extension", 3.08), ("Gas Wildcat", 2.96),
       ("Oil Injection", 0.41), ("Oil Wildcat", 0.685)] ∧
    ("Gas", (96.7 : ℚ)) ∈ generate_production_summary.2 ∧
    ("Oil Wildcat", (0.685 : ℚ)) ∈ generate_production_summary.2 := by
  refine ⟨rfl, rfl, ?_, ?_⟩ <;>
    simp [generate_production_summary, categories, percentages]

/-- C7: the geographic table has exactly 4 rows, whose `Site_Name` column is
exactly the four distinct site names, and it contains the full literal row
for Well Site B. -/
theorem geographic_data_literals :
    generate_geographic_data.2.length = 4 ∧
    generate_geographic_data.2.map Prod.fst =
      ["Well Site A", "Well Site B", "Well Site C", "Well Site D"] ∧
    (["Well Site A", "Well Site B", "Well Site C", "Well Site D"] :
      List String).Nodup ∧
    ("Well Site B", (42.8 : ℚ), (-76.2 : ℚ), "Active", "Oil Production") ∈
      generate_geographic_data.2 := by
  refine ⟨rfl, rfl, by decide, ?_⟩
  simp [generate_geographic_data]

/-- C10: every row of the geographic table has `Status = "Active"`. -/
theorem geographic_all_active
    (r : String × ℚ × ℚ × String × String)
    (h : r ∈ generate_geographic_data.2) :
    r.2.2.2.1 = "Active" := by
  simp [generate_geographic_data] at h
  rcases h with rfl | rfl | rfl | rfl <;> rfl

/-- Witness for C10 at the Well Site A row. -/
theorem geographic_all_active_witness :
    ("Well Site A", (42.5 : ℚ), (-76.5 : ℚ), "Active", "Gas Production") ∈
      generate_geographic_data.2 ∧
    ("Well Site A", (42.5 : ℚ), (-76.5 : ℚ), "Active",
      "Gas Production").2.2.2.1 = "Active" :=
  ⟨by simp [generate_geographic_data],
   geographic_all_active _ (by simp [generate_geographic_data])⟩

/-- C9: the nine literal percentages of the production summary sum to
200.142, not 100 — the source comment "sum to 100%" does not hold of the
literal values. -/
theorem percentages_sum_not_100 :
    (generate_production_summary.2.map Prod.snd).sum = 200.142 ∧
    (generate_production_summary.2.map Prod.snd).sum ≠ 100 := by
  have h : generate_production_summary.2.map Prod.snd = percentages := rfl
  rw [h]
  constructor <;> norm_num [percentages, List.sum_cons]

/-- C8 counterexample: on a filesystem where the parent of `data_dir` is
missing, the module-level setup (`mkdir` with `parents` left `False`) raises
`FileNotFoundError` instead of creating the missing parents. -/
theorem data_dir_setup_no_parents :
    data_dir_setup [] = Except.error MkdirError.fileNotFound := by
  rfl

/-- C8 (amended): provided the parent directory of `data_dir` exists, the
setup creates `data_dir` when it is absent and succeeds silently (returning
the filesystem unchanged) when it already exists; missing parents are not
created since `mkdir` is invoked without `parents=True`. -/
theorem data_dir_setup_amended (fs : List FsPath)
    (hparent : data_dir.dropLast ∈ fs) :
    (data_dir ∈ fs → data_dir_setup fs = Except.ok fs) ∧
    (data_dir ∉ fs → data_dir_setup fs = Except.ok (data_dir :: fs)) := by
  constructor
  · intro hmem
    simp [data_dir_setup, mkdir, hmem]
  · intro hmem
    simp [data_dir_setup, mkdir, hmem, hparent]

/-- Witness for the amended C8: with the parent present, setup is silent when
`data_dir` pre-exists and creates it when absent. -/
theorem data_dir_setup_amended_witness :
    data_dir_setup [["Testing01"], ["Testing01", "data"]] =
      Except.ok [["Testing01"], ["Testing01", "data"]] ∧
    data_dir_setup [["Testing01"]] =
      Except.ok [["Testing01", "data"], ["Testing01"]] :=
  ⟨(data_dir_setup_amended [["Testing01"], ["Testing01", "data"]]
      (by simp [data_dir, project_root])).1 (by simp [data_dir, project_root]),
   (data_dir_setup_amended [["Testing01"]]
      (by simp [data_dir, project_root])).2 (by simp [data_dir, project_root])⟩

/-- Witness for C3 at the concrete PRNG. -/
theorem wells_rows_structure_witness :
    (generate_wells_completion_data lcg 0).1.2.length = 61 ∧
    (generate_wells_completion_data lcg 0).1.2.map Prod.fst =
      (List.range' 1960 61).map Int.ofNat ∧
    List.Chain' (· < ·)
      ((generate_wells_completion_data lcg 0).1.2.map Prod.fst) ∧
    List.Forall (fun p => 0 ≤ p.2)
      (generate_wells_completion_data lcg 0).1.2 :=
  wells_rows_structure lcg 0
